import Mathlib

/-!
Shallow embedding of the geolocation query pipeline (repository
`ristonrodrigues723/geolocation`, files `src/a.py` and `src/i.py`).

Strings are modelled as `List Char` (ASCII); Python floats are modelled as
rationals `ℚ`; Python exceptions are modelled with `Except`.  Definitions
with an `_a` suffix come from `src/a.py`, `_i` from `src/i.py`; definitions
without a suffix are textually identical in the two files.
-/

/-- Python `\s` character class (ASCII part): space, tab, newline,
carriage return, form feed, vertical tab. -/
def pyIsSpace (c : Char) : Bool :=
  c = ' ' || c = '\t' || c = '\n' || c = '\r' || c = '\x0b' || c = '\x0c'

/-- Python `str.lower()` (ASCII model): per-character lowercasing. -/
def pyLower (s : List Char) : List Char := s.map Char.toLower

/-- Python `str.strip()` (ASCII model): drop leading and trailing whitespace. -/
def pyStrip (s : List Char) : List Char :=
  ((s.dropWhile pyIsSpace).reverse.dropWhile pyIsSpace).reverse

/-- Python's substring test `needle in haystack` (contiguous substring). -/
def isSubstring (needle : List Char) : List Char → Bool
  | [] => needle.isEmpty
  | c :: t => needle.isPrefixOf (c :: t) || isSubstring needle t

/-- The five search scopes (`class SearchScope(Enum)`, identical in both files). -/
inductive SearchScope where
  | NEARBY
  | LOCAL
  | CITY
  | METRO
  | REGION
deriving Repr, DecidableEq

/-- `SearchScope.<X>.value`: the string value of each enum member. -/
def SearchScope.value : SearchScope → List Char
  | .NEARBY => "nearby".toList
  | .LOCAL => "local".toList
  | .CITY => "city".toList
  | .METRO => "metro".toList
  | .REGION => "region".toList

/-- Python `any(word in ql for word in ws)`. -/
def anyKw (ws : List (List Char)) (ql : List Char) : Bool :=
  ws.any fun w => isSubstring w ql

/-- Keyword list of the first classifier rule (identical in both files). -/
def rule1Words : List (List Char) :=
  ["college".toList, "university".toList, "hospital".toList, "mall".toList]

/-- Keyword list of the second classifier rule (identical in both files). -/
def rule2Words : List (List Char) :=
  ["park".toList, "beach".toList, "forest".toList, "hill".toList,
   "mountain".toList, "island".toList]

/-- Keyword list of the third classifier rule (identical in both files). -/
def rule3Words : List (List Char) :=
  ["restaurant".toList, "shop".toList, "cafe".toList, "store".toList,
   "salon".toList]

/-- The keyword of `src/a.py`'s fourth classifier rule. -/
def mumbaiKw : List Char := "mumbai".toList

/-- The keyword of `src/a.py`'s fifth classifier rule. -/
def maharashtraKw : List Char := "maharashtra".toList

/-- The keyword of `src/i.py`'s fourth classifier rule. -/
def cityKw : List Char := "city".toList

/-- `determine_search_scope` from `src/a.py` (lines 110-126): keyword rules in
priority order, then `mumbai` → CITY, `maharashtra` → REGION, default LOCAL. -/
def determine_search_scope_a (query : List Char) : SearchScope :=
  let ql := pyLower query
  if anyKw rule1Words ql then .METRO
  else if anyKw rule2Words ql then .REGION
  else if anyKw rule3Words ql then .NEARBY
  else if isSubstring mumbaiKw ql then .CITY
  else if isSubstring maharashtraKw ql then .REGION
  else .LOCAL

/-- `determine_search_scope` from `src/i.py` (lines 84-98): same first three
keyword rules, then `city` → CITY, default LOCAL. -/
def determine_search_scope_i (query : List Char) : SearchScope :=
  let ql := pyLower query
  if anyKw rule1Words ql then .METRO
  else if anyKw rule2Words ql then .REGION
  else if anyKw rule3Words ql then .NEARBY
  else if isSubstring cityKw ql then .CITY
  else .LOCAL

example : determine_search_scope_a ("Mumbai".toList) = .CITY := by decide
example : determine_search_scope_i ("Mumbai".toList) = .LOCAL := by decide
example : determine_search_scope_a ("smallest temple".toList) = .METRO := by decide
example : determine_search_scope_i ("parking lot".toList) = .REGION := by decide
example : determine_search_scope_a ("best College".toList) = .METRO := by decide

/-- `@dataclass SearchRegion` (both files): center point, radius in km, name.
Coordinates and radius are Python floats, modelled as rationals. -/
structure SearchRegion where
  center_lat : ℚ
  center_lon : ℚ
  radius_km : ℚ
  name : List Char
deriving Repr, DecidableEq

/-- The `(north, south, east, west)` tuple returned by the `bounds` property,
with named fields standing for the tuple components in that order. -/
structure Bounds where
  north : ℚ
  south : ℚ
  east : ℚ
  west : ℚ
deriving Repr, DecidableEq

/-- `SearchRegion.bounds` property from `src/a.py` (lines 38-56): for
radius ≥ 200 a fixed Mumbai metropolitan box, otherwise center ± radius/111.
(`src/i.py`'s `SearchRegion` has no `bounds` property.) -/
def SearchRegion.bounds (r : SearchRegion) : Bounds :=
  if r.radius_km ≥ 200 then
    -- the source's literals 19.5, 18.5, 73.5, 72.5, written as exact rationals
    ⟨mkRat 39 2, mkRat 37 2, mkRat 147 2, mkRat 145 2⟩
  else
    let deg_change := r.radius_km / 111
    ⟨r.center_lat + deg_change, r.center_lat - deg_change,
     r.center_lon + deg_change, r.center_lon - deg_change⟩

/-- Python exceptions that the modelled code can raise. -/
inductive PyError where
  | valueError
  | keyError
  | other
deriving Repr, DecidableEq

/-- `dict.get` / `dict[...]` on the `self.regions` dictionary, modelled as an
association list with the insertion-ordered, duplicate-free keys that
`initialize_regions` produces. -/
def lookupAssoc (l : List (List Char × SearchRegion)) (k : List Char) :
    Option SearchRegion :=
  match l with
  | [] => none
  | (k', v) :: t => if k' = k then some v else lookupAssoc t k

/-- `LocationService.initialize_regions` from `src/a.py` (lines 84-92). -/
def initialize_regions_a (center_lat center_lon : ℚ) :
    List (List Char × SearchRegion) :=
  [(SearchScope.NEARBY.value, ⟨center_lat, center_lon, 5, "Nearby Area".toList⟩),
   (SearchScope.LOCAL.value, ⟨center_lat, center_lon, 15, "Local Area".toList⟩),
   (SearchScope.CITY.value, ⟨center_lat, center_lon, 30, "City Area".toList⟩),
   (SearchScope.METRO.value, ⟨center_lat, center_lon, 50, "Metropolitan Area".toList⟩),
   (SearchScope.REGION.value, ⟨center_lat, center_lon, 200, "Mumbai Metropolitan Region".toList⟩)]

/-- `LocationService.initialize_regions` from `src/i.py` (lines 63-71); it
differs from `src/a.py` only in the REGION display name. -/
def initialize_regions_i (center_lat center_lon : ℚ) :
    List (List Char × SearchRegion) :=
  [(SearchScope.NEARBY.value, ⟨center_lat, center_lon, 5, "Nearby Area".toList⟩),
   (SearchScope.LOCAL.value, ⟨center_lat, center_lon, 15, "Local Area".toList⟩),
   (SearchScope.CITY.value, ⟨center_lat, center_lon, 30, "City Area".toList⟩),
   (SearchScope.METRO.value, ⟨center_lat, center_lon, 50, "Metropolitan Area".toList⟩),
   (SearchScope.REGION.value, ⟨center_lat, center_lon, 200, "Regional Area".toList⟩)]

/-- `LocationService.get_search_region` (`src/a.py` lines 96-106, `src/i.py`
lines 73-82; identical up to a log line): `ValueError` when the region map is
empty, otherwise `dict.get` with a fallback to the `local` entry (whose
`dict[...]` indexing would raise `KeyError` if that key were absent). -/
def get_search_region (regions : List (List Char × SearchRegion))
    (scope : SearchScope) : Except PyError SearchRegion :=
  if regions.isEmpty then
    .error .valueError
  else
    match lookupAssoc regions scope.value with
    | some r => .ok r
    | none =>
      match lookupAssoc regions SearchScope.LOCAL.value with
      | some r => .ok r
      | none => .error .keyError

/-- The fixed radius (km) that `initialize_regions` assigns to each scope. -/
def fixedRadius : SearchScope → ℚ
  | .NEARBY => 5
  | .LOCAL => 15
  | .CITY => 30
  | .METRO => 50
  | .REGION => 200

example :
    get_search_region (initialize_regions_a 19 72) .REGION =
      .ok ⟨19, 72, 200, "Mumbai Metropolitan Region".toList⟩ := by rfl
example :
    (SearchRegion.mk 19 72 200 []).bounds = ⟨19.5, 18.5, 73.5, 72.5⟩ := by
  norm_num [SearchRegion.bounds, Rat.mkRat_eq_div]
example :
    (SearchRegion.mk 19 72 5 []).bounds =
      ⟨19 + 5 / 111, 19 - 5 / 111, 72 + 5 / 111, 72 - 5 / 111⟩ := by
  norm_num [SearchRegion.bounds]
example : get_search_region [] .NEARBY = .error .valueError := by rfl

/-! ### Response parser

Models of the `re.search` calls in `create_structured_data`.  Each Python
pattern is compiled by hand to a scanning function with the leftmost-match,
greedy-with-backtracking semantics of the `re` module. -/

/-- Case-insensitive literal match of `pat` (given lowercased) against the
start of `s`, as `re.I` does for the label part of the patterns. -/
def matchesCI : List Char → List Char → Bool
  | [], _ => true
  | _ :: _, [] => false
  | p :: ps, c :: cs => (Char.toLower c = p) && matchesCI ps cs

/-- Matches `\s*([^\n]+)` at the start of `rest` and returns the group:
greedy `\s*` (which may cross newlines), backtracking until `[^\n]+` can
take at least one character. -/
def spaceStarValue (rest : List Char) : Option (List Char) :=
  let w := rest.takeWhile pyIsSpace
  let tail := rest.drop w.length
  match tail with
  | [] =>
    -- only whitespace remains: backtrack `\s*`; the group becomes the last
    -- non-newline whitespace character, if any
    match w.reverse.dropWhile (fun c => c = '\n') with
    | [] => none
    | c :: _ => some [c]
  | _ :: _ => some (tail.takeWhile (fun c => c ≠ '\n'))

/-- Tries `(?:lab₁|lab₂|…):\s*([^\n]+)` anchored at the start of `s`
(labels have pairwise distinct initials, so alternation order is immaterial
for which one can match at a given position). -/
def matchLabelValueHere (labels : List (List Char)) (s : List Char) :
    Option (List Char) :=
  labels.findSome? fun lab =>
    if matchesCI (lab ++ [':']) s then
      spaceStarValue (s.drop (lab.length + 1))
    else none

/-- `re.search` for `(?:lab₁|…):\s*([^\n]+)` with `re.I`: scan start
positions left to right, return group 1 of the first match. -/
def searchLabelValue (labels : List (List Char)) : List Char → Option (List Char)
  | [] => none
  | c :: t =>
    match matchLabelValueHere labels (c :: t) with
    | some g => some g
    | none => searchLabelValue labels t

/-- The character class `[\d.-]` of the coordinate pattern in `src/a.py`. -/
def isCoordChar_a (c : Char) : Bool := c.isDigit || c = '.' || c = '-'

/-- Matches `\s*([\d.-]+)\s*([\d.-]+)` at the start of `s` (the tail of the
`src/a.py` coordinate pattern) and returns the two groups.  Greedy group 1
backtracks by exactly one character when nothing is left for group 2. -/
def matchTwoTokensHere (s : List Char) : Option (List Char × List Char) :=
  let s1 := s.dropWhile pyIsSpace
  let r := s1.takeWhile isCoordChar_a
  if r.isEmpty then none
  else
    let rest := s1.drop r.length
    let after := rest.dropWhile pyIsSpace
    let g2 := after.takeWhile isCoordChar_a
    if !g2.isEmpty then some (r, g2)
    else if r.length ≥ 2 then some (r.take (r.length - 1), r.drop (r.length - 1))
    else none

/-- The literal label of both coordinate patterns. -/
def coordLabel : List Char := "coordinates:".toList

/-- `re.search(r'coordinates:\s*([\d.-]+)\s*([\d.-]+)', section, re.I)`
from `src/a.py` line 155, returning the two groups. -/
def searchCoordinates_a : List Char → Option (List Char × List Char)
  | [] => none
  | c :: t =>
    match
      (if matchesCI coordLabel (c :: t) then
        matchTwoTokensHere ((c :: t).drop coordLabel.length)
      else none) with
    | some g => some g
    | none => searchCoordinates_a t

/-- Backtracking candidates `(group, rest)` for a greedy `\d+` suffix of a
number group: the final digit run `F` is cut at length `k = |F| … 1`. -/
def dotCandidates (pre F tail : List Char) : List (List Char × List Char) :=
  (List.range F.length).map fun i =>
    (pre ++ F.take (F.length - i), F.drop (F.length - i) ++ tail)

/-- Candidates for `\d*\.\d+` after an already-consumed sign `sgn`:
`\d*` must be the maximal digit run (anything shorter is not followed by
`.`), then the fractional `\d+` backtracks. -/
def candADigits (sgn u' : List Char) : List (List Char × List Char) :=
  let D := u'.takeWhile Char.isDigit
  match u'.drop D.length with
  | '.' :: r2 =>
    let F := r2.takeWhile Char.isDigit
    dotCandidates (sgn ++ D ++ ['.']) F (r2.drop F.length)
  | _ => []

/-- Candidates for the first alternative `[-+]?\d*\.\d+` (sign consumed
greedily; declining the sign cannot lead to a match). -/
def candA (u : List Char) : List (List Char × List Char) :=
  match u with
  | c :: t => if c = '-' || c = '+' then candADigits [c] t else candADigits [] u
  | [] => []

/-- Candidates for the second alternative `\d+`. -/
def candB (u : List Char) : List (List Char × List Char) :=
  let D := u.takeWhile Char.isDigit
  dotCandidates [] D (u.drop D.length)

/-- Backtracking candidates for `([-+]?\d*\.\d+|\d+)`, first alternative
preferred. -/
def numCandidates (u : List Char) : List (List Char × List Char) :=
  candA u ++ candB u

/-- Matches `\s*([-+]?\d*\.\d+|\d+)\s*,\s*([-+]?\d*\.\d+|\d+)` at the start
of `s` (the tail of the `src/i.py` coordinate pattern, line 115). -/
def matchCoordTail_i (s : List Char) : Option (List Char × List Char) :=
  let u := s.dropWhile pyIsSpace
  (numCandidates u).findSome? fun g1r =>
    match g1r.2.dropWhile pyIsSpace with
    | ',' :: r3 =>
      match numCandidates (r3.dropWhile pyIsSpace) with
      | g2 :: _ => some (g1r.1, g2.1)
      | [] => none
    | _ => none

/-- `re.search` for the comma-separated coordinate pattern of `src/i.py`. -/
def searchCoordinates_i : List Char → Option (List Char × List Char)
  | [] => none
  | c :: t =>
    match
      (if matchesCI coordLabel (c :: t) then
        matchCoordTail_i ((c :: t).drop coordLabel.length)
      else none) with
    | some g => some g
    | none => searchCoordinates_i t

/-- Numeric value of a digit run. -/
def digitsToNat (ds : List Char) : Nat :=
  ds.foldl (fun n c => 10 * n + (c.toNat - 48)) 0

/-- Unsigned part of Python `float()` on the token alphabet the coordinate
patterns can produce (digits, `.`): `digits [. digits]` or `. digits`,
also `digits .`. -/
def parseMantissa (s : List Char) : Option ℚ :=
  let I := s.takeWhile Char.isDigit
  match s.drop I.length with
  | [] => if I.isEmpty then none else some (mkRat (digitsToNat I) 1)
  | '.' :: r2 =>
    let F := r2.takeWhile Char.isDigit
    if (r2.drop F.length).isEmpty && !(I.isEmpty && F.isEmpty) then
      some (mkRat (digitsToNat I * 10 ^ F.length + digitsToNat F) (10 ^ F.length))
    else none
  | _ => none

/-- Python `float()` on a matched coordinate token; `none` models the
`ValueError` that the parser catches. -/
def pyFloat (s : List Char) : Option ℚ :=
  match s with
  | '-' :: t => (parseMantissa t).map (fun q => -q)
  | '+' :: t => parseMantissa t
  | _ => parseMantissa s

/-- `response_text.split('\n\n')`: split on each non-overlapping occurrence,
scanning left to right. -/
def pySplitBlank (acc : List Char) : List Char → List (List Char)
  | '\n' :: '\n' :: t => acc.reverse :: pySplitBlank [] t
  | c :: t => pySplitBlank (c :: acc) t
  | [] => [acc.reverse]

/-- One parsed location (row of the records DataFrame, both files). -/
structure LocationRecord where
  name : List Char
  type : List Char
  latitude : ℚ
  longitude : ℚ
  description : Option (List Char)
deriving Repr, DecidableEq

/-- `is_valid_coordinate` from `src/a.py` (lines 128-139). -/
def is_valid_coordinate (lat lon : ℚ) (region : SearchRegion) : Bool :=
  let b := region.bounds
  decide (-90 ≤ lat ∧ lat ≤ 90 ∧ -180 ≤ lon ∧ lon ≤ 180 ∧
    b.south ≤ lat ∧ lat ≤ b.north ∧ b.west ≤ lon ∧ lon ≤ b.east)

/-- Label lists of the three field patterns (identical in both files). -/
def nameLabels : List (List Char) :=
  ["name".toList, "location".toList, "place".toList]

/-- Labels of the type/category pattern. -/
def typeLabels : List (List Char) := ["type".toList, "category".toList]

/-- Label of the description pattern. -/
def descLabels : List (List Char) := ["description".toList]

/-- The default `'unspecified'` type string. -/
def unspecifiedType : List Char := "unspecified".toList

/-- Loop body of `create_structured_data` in `src/a.py` (lines 146-175):
skip blank sections, require name and coordinates, convert the two tokens
with `float()` (failures skip the section), keep the record only if
`is_valid_coordinate` holds. -/
def processSection_a (region : SearchRegion) (records : List LocationRecord)
    (sec : List Char) : List LocationRecord :=
  if pyStrip sec = [] then records
  else
    match searchLabelValue nameLabels sec, searchCoordinates_a sec with
    | some nm, some (t1, t2) =>
      match pyFloat t1 with
      | none => records
      | some lat =>
        match pyFloat t2 with
        | none => records
        | some lon =>
          if is_valid_coordinate lat lon region then
            records ++ [{ name := pyStrip nm,
                          type := match searchLabelValue typeLabels sec with
                                  | some tv => pyStrip tv
                                  | none => unspecifiedType,
                          latitude := lat, longitude := lon,
                          description := (searchLabelValue descLabels sec).map pyStrip }]
          else records
    | _, _ => records

/-- `create_structured_data` from `src/a.py` (lines 141-182), returning the
DataFrame rows in order. -/
def create_structured_data_a (response_text : List Char)
    (region : SearchRegion) : List LocationRecord :=
  (pySplitBlank [] response_text).foldl (processSection_a region) []

/-- Loop body of `create_structured_data` in `src/i.py` (lines 105-134):
as in `src/a.py` but with the comma-separated coordinate pattern and
without any coordinate validation. -/
def processSection_i (records : List LocationRecord) (sec : List Char) :
    List LocationRecord :=
  if pyStrip sec = [] then records
  else
    match searchLabelValue nameLabels sec, searchCoordinates_i sec with
    | some nm, some (t1, t2) =>
      match pyFloat t1 with
      | none => records
      | some lat =>
        match pyFloat t2 with
        | none => records
        | some lon =>
          records ++ [{ name := pyStrip nm,
                        type := match searchLabelValue typeLabels sec with
                                | some tv => pyStrip tv
                                | none => unspecifiedType,
                        latitude := lat, longitude := lon,
                        description := (searchLabelValue descLabels sec).map pyStrip }]
    | _, _ => records

/-- `create_structured_data` from `src/i.py` (lines 100-142).  The `region`
argument is accepted and ignored, as in the source. -/
def create_structured_data_i (response_text : List Char)
    (_region : SearchRegion) : List LocationRecord :=
  (pySplitBlank [] response_text).foldl processSection_i []

/-- One row of the annotated result DataFrame: a parsed record plus the
`search_scope` and `search_region` columns added by
`process_location_query`. -/
structure AnnotatedRecord where
  record : LocationRecord
  search_scope : List Char
  search_region : List Char
deriving Repr, DecidableEq

/-- `process_location_query` from `src/a.py` (lines 184-227).  `completion`
is the outcome of the single `model.generate_content(prompt)` call (the
prompt construction is pure string formatting and is not modelled further);
the `try`/`except` turns any failure of that call into an empty DataFrame,
and no second call is made. -/
def process_location_query_a (query : List Char)
    (regions : List (List Char × SearchRegion))
    (completion : Except PyError (List Char)) :
    Except PyError (List AnnotatedRecord) :=
  let scope := determine_search_scope_a query
  match get_search_region regions scope with
  | .error e => .error e
  | .ok region =>
    match completion with
    | .error _ => .ok []
    | .ok text =>
      .ok ((create_structured_data_a text region).map
        fun r => ⟨r, scope.value, region.name⟩)

/-- `process_location_query` from `src/i.py` (lines 144-176); identical
control flow, with the `src/i.py` classifier and parser. -/
def process_location_query_i (query : List Char)
    (regions : List (List Char × SearchRegion))
    (completion : Except PyError (List Char)) :
    Except PyError (List AnnotatedRecord) :=
  let scope := determine_search_scope_i query
  match get_search_region regions scope with
  | .error e => .error e
  | .ok region =>
    match completion with
    | .error _ => .ok []
    | .ok text =>
      .ok ((create_structured_data_i text region).map
        fun r => ⟨r, scope.value, region.name⟩)

/-- The two-line block of §8's parsing example. -/
def juhuText : List Char := "Name: Juhu Beach\nCoordinates: 19.10 72.83".toList

/-- A region whose bounds contain (19.10, 72.83): the fixed metropolitan box. -/
def mumbaiRegion : SearchRegion := ⟨19, 72, 200, "Mumbai Metropolitan Region".toList⟩

example :
    create_structured_data_a juhuText mumbaiRegion =
      [⟨"Juhu Beach".toList, unspecifiedType, mkRat 191 10, mkRat 7283 100, none⟩] := by
  decide
example :
    create_structured_data_a ("Name: X\nCoordinates: 0 0".toList) mumbaiRegion = [] := by
  decide
example : create_structured_data_a [] mumbaiRegion = [] := by decide
example : create_structured_data_i juhuText mumbaiRegion = [] := by decide
example :
    create_structured_data_i ("Name: X\nCoordinates: 19.10, 72.83".toList) mumbaiRegion =
      [⟨"X".toList, unspecifiedType, mkRat 191 10, mkRat 7283 100, none⟩] := by
  decide

/-! ### Helper lemmas -/

/-- `isSubstring` agrees with the contiguous-sublist relation. -/
theorem isSubstring_iff (n : List Char) :
    ∀ h : List Char, isSubstring n h = true ↔ n <:+: h := by
  intro h
  induction h with
  | nil => simp [isSubstring, List.isEmpty_iff]
  | cons c t ih =>
    simp [isSubstring, ih, List.infix_cons_iff]

/-- Substring containment is transitive. -/
theorem isSubstring_trans {a b c : List Char} (h1 : isSubstring a b = true)
    (h2 : isSubstring b c = true) : isSubstring a c = true := by
  rw [isSubstring_iff] at h1 h2 ⊢
  exact h1.trans h2

/-- Display name that `initialize_regions` in `src/a.py` assigns to a scope. -/
def regionName_a : SearchScope → List Char
  | .NEARBY => "Nearby Area".toList
  | .LOCAL => "Local Area".toList
  | .CITY => "City Area".toList
  | .METRO => "Metropolitan Area".toList
  | .REGION => "Mumbai Metropolitan Region".toList

/-- Display name that `initialize_regions` in `src/i.py` assigns to a scope. -/
def regionName_i : SearchScope → List Char
  | .NEARBY => "Nearby Area".toList
  | .LOCAL => "Local Area".toList
  | .CITY => "City Area".toList
  | .METRO => "Metropolitan Area".toList
  | .REGION => "Regional Area".toList

/-- After `initialize_regions` (`src/a.py`), region lookup always succeeds
and returns the freshly-built region of the requested scope. -/
theorem get_init_a_ok (lat lon : ℚ) (scope : SearchScope) :
    get_search_region (initialize_regions_a lat lon) scope =
      .ok ⟨lat, lon, fixedRadius scope, regionName_a scope⟩ := by
  cases scope <;> rfl

/-- After `initialize_regions` (`src/i.py`), region lookup always succeeds
and returns the freshly-built region of the requested scope. -/
theorem get_init_i_ok (lat lon : ℚ) (scope : SearchScope) :
    get_search_region (initialize_regions_i lat lon) scope =
      .ok ⟨lat, lon, fixedRadius scope, regionName_i scope⟩ := by
  cases scope <;> rfl

/-! ### Claims about the scope classifier -/

/-- C5: every query containing `college`, `university`, `hospital` or `mall`
in any letter case (i.e. whose lower-cased form contains one of the rule-1
keywords) is classified METRO by both implementations. -/
theorem c5_metro_keywords (query : List Char)
    (h : anyKw rule1Words (pyLower query) = true) :
    determine_search_scope_a query = .METRO ∧
      determine_search_scope_i query = .METRO := by
  constructor <;> simp [determine_search_scope_a, determine_search_scope_i, h]

/-- Witness for C5 at the query `"Best College"`. -/
theorem c5_metro_keywords_witness :
    determine_search_scope_a ("Best College".toList) = .METRO ∧
      determine_search_scope_i ("Best College".toList) = .METRO :=
  c5_metro_keywords ("Best College".toList) (by decide)

/-- C6 counterexample: the query `"mumbai"` contains `mumbai`, contains none
of the fifteen higher-priority keywords, yet `src/i.py`'s classifier returns
LOCAL, not CITY — so the claim fails for that implementation. -/
theorem c6_counterexample :
    isSubstring mumbaiKw (pyLower ("mumbai".toList)) = true ∧
    anyKw (rule1Words ++ rule2Words ++ rule3Words) (pyLower ("mumbai".toList)) = false ∧
    determine_search_scope_i ("mumbai".toList) ≠ SearchScope.CITY := by
  decide

/-- C6 (amended): a query whose lower-cased form contains `mumbai` and none
of the higher-priority keywords is classified CITY by `src/a.py`'s
classifier; `src/i.py`'s classifier keys CITY on the substring `city`
instead, so the claim holds only for `src/a.py`. -/
theorem c6_mumbai_city_a (query : List Char)
    (hm : isSubstring mumbaiKw (pyLower query) = true)
    (hk : anyKw (rule1Words ++ rule2Words ++ rule3Words) (pyLower query) = false) :
    determine_search_scope_a query = SearchScope.CITY := by
  unfold anyKw at hk
  rw [List.any_append, List.any_append] at hk
  simp only [Bool.or_eq_false_iff] at hk
  obtain ⟨⟨h1, h2⟩, h3⟩ := hk
  simp [determine_search_scope_a, anyKw, h1, h2, h3, hm]

/-- Witness for the amended C6 at the query `"mumbai"`. -/
theorem c6_mumbai_city_a_witness :
    determine_search_scope_a ("mumbai".toList) = SearchScope.CITY :=
  c6_mumbai_city_a ("mumbai".toList) (by decide) (by decide)

/-- C7 counterexample: on the query `"mumbai"` the two `determine_search_scope`
functions disagree (CITY in `src/a.py`, LOCAL in `src/i.py`), so the two
implementations also diverge in scope classification, not only in
bounds-checking and coordinate-regex strictness. -/
theorem c7_counterexample :
    determine_search_scope_a ("mumbai".toList) = SearchScope.CITY ∧
    determine_search_scope_i ("mumbai".toList) = SearchScope.LOCAL ∧
    determine_search_scope_a ("mumbai".toList) ≠
      determine_search_scope_i ("mumbai".toList) := by
  decide

/-- C7 (amended): the classifiers agree on every query whose lower-cased form
contains none of `mumbai`, `maharashtra`, `city` — the keywords of the rules
in which the two files differ. -/
theorem c7_classifiers_agree (query : List Char)
    (h1 : isSubstring mumbaiKw (pyLower query) = false)
    (h2 : isSubstring maharashtraKw (pyLower query) = false)
    (h3 : isSubstring cityKw (pyLower query) = false) :
    determine_search_scope_a query = determine_search_scope_i query := by
  simp [determine_search_scope_a, determine_search_scope_i, h1, h2, h3]

/-- Witness for the amended C7 at the query `"hello"`. -/
theorem c7_classifiers_agree_witness :
    determine_search_scope_a ("hello".toList) =
      determine_search_scope_i ("hello".toList) :=
  c7_classifiers_agree ("hello".toList) (by decide) (by decide) (by decide)

/-- C10: keyword matching is substring containment, not whole-word matching:
a query containing `smallest` is METRO in both implementations (via the
substring `mall`), and a query containing `parking` but no rule-1 keyword is
REGION in both (via the substring `park`). -/
theorem c10_substring_matching :
    (∀ query : List Char,
      isSubstring ("smallest".toList) (pyLower query) = true →
      determine_search_scope_a query = .METRO ∧
        determine_search_scope_i query = .METRO) ∧
    (∀ query : List Char,
      isSubstring ("parking".toList) (pyLower query) = true →
      anyKw rule1Words (pyLower query) = false →
      determine_search_scope_a query = .REGION ∧
        determine_search_scope_i query = .REGION) := by
  constructor
  · intro query hq
    have hm : isSubstring ("mall".toList) (pyLower query) = true :=
      isSubstring_trans (by decide) hq
    have h1 : anyKw rule1Words (pyLower query) = true := by
      unfold anyKw
      exact List.any_eq_true.mpr ⟨"mall".toList, by decide, hm⟩
    constructor <;> simp [determine_search_scope_a, determine_search_scope_i, h1]
  · intro query hq h1
    have hp : isSubstring ("park".toList) (pyLower query) = true :=
      isSubstring_trans (by decide) hq
    have h2 : anyKw rule2Words (pyLower query) = true := by
      unfold anyKw
      exact List.any_eq_true.mpr ⟨"park".toList, by decide, hp⟩
    constructor <;> simp [determine_search_scope_a, determine_search_scope_i, h1, h2]

/-- Witness for C10 at the queries `"smallest church"` and `"parking lot"`. -/
theorem c10_substring_matching_witness :
    (determine_search_scope_a ("smallest church".toList) = .METRO ∧
      determine_search_scope_i ("smallest church".toList) = .METRO) ∧
    (determine_search_scope_a ("parking lot".toList) = .REGION ∧
      determine_search_scope_i ("parking lot".toList) = .REGION) :=
  ⟨c10_substring_matching.1 ("smallest church".toList) (by decide),
   c10_substring_matching.2 ("parking lot".toList) (by decide) (by decide)⟩

/-! ### Claims about the region catalog -/

/-- C2: for every center passed to `initialize_regions`, the REGION-scope
region (radius 200 km) has the fixed bounds north 19.5, south 18.5,
east 73.5, west 72.5, independent of the center coordinates. -/
theorem c2_region_bounds_fixed (center_lat center_lon : ℚ) :
    ∃ r, get_search_region (initialize_regions_a center_lat center_lon)
        SearchScope.REGION = .ok r ∧
      r.bounds = ⟨19.5, 18.5, 73.5, 72.5⟩ := by
  refine ⟨_, get_init_a_ok center_lat center_lon SearchScope.REGION, ?_⟩
  norm_num [SearchRegion.bounds, fixedRadius, Rat.mkRat_eq_div]

/-- C3: for every scope other than REGION, the region built by
`initialize_regions` has bounds `center ± r/111` where `r` is the scope's
fixed radius (NEARBY 5, LOCAL 15, CITY 30, METRO 50). -/
theorem c3_nonregion_bounds (center_lat center_lon : ℚ) (scope : SearchScope)
    (h : scope ≠ SearchScope.REGION) :
    ∃ r, get_search_region (initialize_regions_a center_lat center_lon)
        scope = .ok r ∧
      r.bounds = ⟨center_lat + fixedRadius scope / 111,
                  center_lat - fixedRadius scope / 111,
                  center_lon + fixedRadius scope / 111,
                  center_lon - fixedRadius scope / 111⟩ := by
  refine ⟨_, get_init_a_ok center_lat center_lon scope, ?_⟩
  cases scope
  case REGION => exact absurd rfl h
  all_goals norm_num [SearchRegion.bounds, fixedRadius]

/-- Witness for C3 at center (0, 0) and scope NEARBY. -/
theorem c3_nonregion_bounds_witness :
    ∃ r, get_search_region (initialize_regions_a 0 0) SearchScope.NEARBY = .ok r ∧
      r.bounds = ⟨0 + fixedRadius SearchScope.NEARBY / 111,
                  0 - fixedRadius SearchScope.NEARBY / 111,
                  0 + fixedRadius SearchScope.NEARBY / 111,
                  0 - fixedRadius SearchScope.NEARBY / 111⟩ :=
  c3_nonregion_bounds 0 0 SearchScope.NEARBY (by decide)

/-- C9: region lookup on an uninitialized (empty) map fails with the
`ValueError`; after `initialize_regions` (either file) it always returns a
region; and whenever the requested scope key is absent from a non-empty map,
the lookup falls back to the LOCAL entry (so it returns exactly what a LOCAL
lookup would). -/
theorem c9_lookup_errors :
    (∀ scope, get_search_region [] scope = .error .valueError) ∧
    (∀ lat lon : ℚ, ∀ scope, ∃ r,
      get_search_region (initialize_regions_a lat lon) scope = .ok r) ∧
    (∀ lat lon : ℚ, ∀ scope, ∃ r,
      get_search_region (initialize_regions_i lat lon) scope = .ok r) ∧
    (∀ regions scope, regions ≠ [] →
      lookupAssoc regions scope.value = none →
      get_search_region regions scope =
        get_search_region regions SearchScope.LOCAL) := by
  refine ⟨fun scope => rfl,
    fun lat lon scope => ⟨_, get_init_a_ok lat lon scope⟩,
    fun lat lon scope => ⟨_, get_init_i_ok lat lon scope⟩,
    fun regions scope hne hnone => ?_⟩
  cases regions with
  | nil => exact absurd rfl hne
  | cons hd tl =>
    simp only [get_search_region, List.isEmpty_cons, Bool.false_eq_true,
      if_false, hnone]
    cases h : lookupAssoc (hd :: tl) SearchScope.LOCAL.value <;> simp [h]

/-- Witness for C9: the empty map errors, an initialized map succeeds, and a
map holding only the `local` key makes a CITY lookup fall back to LOCAL. -/
theorem c9_lookup_errors_witness :
    get_search_region [] SearchScope.CITY = .error .valueError ∧
    (∃ r, get_search_region (initialize_regions_a 19 72) SearchScope.METRO = .ok r) ∧
    get_search_region [(SearchScope.LOCAL.value, ⟨0, 0, 15, []⟩)] SearchScope.CITY =
      get_search_region [(SearchScope.LOCAL.value, ⟨0, 0, 15, []⟩)] SearchScope.LOCAL :=
  ⟨c9_lookup_errors.1 SearchScope.CITY,
   c9_lookup_errors.2.1 19 72 SearchScope.METRO,
   c9_lookup_errors.2.2.2 [(SearchScope.LOCAL.value, ⟨0, 0, 15, []⟩)]
     SearchScope.CITY (by decide) (by decide)⟩

/-! ### Claim about completion-service failure -/

/-- C8: when the completion-service call fails with any exception, the
pipeline of either file returns an empty result set instead of propagating
the exception; the model performs the completion call exactly once, so there
is no retry. -/
theorem c8_completion_failure_empty (query : List Char) (lat lon : ℚ)
    (e : PyError) :
    process_location_query_a query (initialize_regions_a lat lon)
        (.error e) = .ok [] ∧
    process_location_query_i query (initialize_regions_i lat lon)
        (.error e) = .ok [] := by
  constructor
  · simp only [process_location_query_a, get_init_a_ok]
  · simp only [process_location_query_i, get_init_i_ok]

/-! ### Claims about the bounds-checking parser of `src/a.py` -/

/-- The invariant of C1, spelled out on a record against a region. -/
def withinBounds (region : SearchRegion) (r : LocationRecord) : Prop :=
  -90 ≤ r.latitude ∧ r.latitude ≤ 90 ∧
  -180 ≤ r.longitude ∧ r.longitude ≤ 180 ∧
  region.bounds.south ≤ r.latitude ∧ r.latitude ≤ region.bounds.north ∧
  region.bounds.west ≤ r.longitude ∧ r.longitude ≤ region.bounds.east

/-- A record emitted by one loop iteration of `src/a.py`'s parser was either
already present or passed `is_valid_coordinate`. -/
theorem processSection_a_mem (region : SearchRegion)
    (records : List LocationRecord) (sec : List Char) (r : LocationRecord)
    (hr : r ∈ processSection_a region records sec) :
    r ∈ records ∨ is_valid_coordinate r.latitude r.longitude region = true := by
  unfold processSection_a at hr
  split at hr
  · exact Or.inl hr
  · split at hr
    case _ nm t1 t2 _ _ =>
      split at hr
      · exact Or.inl hr
      case _ lat hlat =>
        split at hr
        · exact Or.inl hr
        case _ lon hlon =>
          split at hr
          case isTrue hvalid =>
            rw [List.mem_append] at hr
            rcases hr with hr | hr
            · exact Or.inl hr
            · rw [List.mem_singleton] at hr
              subst hr
              exact Or.inr hvalid
          case isFalse => exact Or.inl hr
    · exact Or.inl hr

/-- The parser loop of `src/a.py` only accumulates records that passed
`is_valid_coordinate`. -/
theorem foldl_processSection_a_sound (region : SearchRegion) :
    ∀ (secs : List (List Char)) (init : List LocationRecord),
    (∀ r ∈ init, is_valid_coordinate r.latitude r.longitude region = true) →
    ∀ r ∈ secs.foldl (processSection_a region) init,
      is_valid_coordinate r.latitude r.longitude region = true := by
  intro secs
  induction secs with
  | nil => intro init hinit r hr; exact hinit r hr
  | cons s t ih =>
    intro init hinit r hr
    refine ih _ (fun r' hr' => ?_) r hr
    rcases processSection_a_mem region init s r' hr' with h | h
    · exact hinit r' h
    · exact h

/-- C1: every record returned by `create_structured_data` of `src/a.py`, on
any raw response text and any region, has latitude in [-90, 90], longitude
in [-180, 180], and lies within the region's bounds (so a block whose
coordinates fall outside the bounds contributes no record). -/
theorem c1_parser_bounds_invariant (response_text : List Char)
    (region : SearchRegion) (r : LocationRecord)
    (h : r ∈ create_structured_data_a response_text region) :
    withinBounds region r := by
  have hv : is_valid_coordinate r.latitude r.longitude region = true := by
    refine foldl_processSection_a_sound region _ [] ?_ r h
    intro r' hr'
    exact absurd hr' (List.not_mem_nil r')
  unfold is_valid_coordinate at hv
  rw [decide_eq_true_eq] at hv
  exact hv

/-- Witness for C1: the record parsed from the §8 example block against the
fixed metropolitan-box region satisfies the invariant. -/
theorem c1_parser_bounds_invariant_witness :
    withinBounds mumbaiRegion
      ⟨"Juhu Beach".toList, unspecifiedType, mkRat 191 10, mkRat 7283 100, none⟩ :=
  c1_parser_bounds_invariant juhuText mumbaiRegion _ (by decide)

/-- Reduction of one parser-loop iteration of `src/a.py` once the section's
matches and float conversions are known: everything now hinges on
`is_valid_coordinate`. -/
theorem processSection_a_eq (region : SearchRegion)
    (records : List LocationRecord) (sec nm t1 t2 : List Char) (lat lon : ℚ)
    (hs : ¬ pyStrip sec = [])
    (hn : searchLabelValue nameLabels sec = some nm)
    (hc : searchCoordinates_a sec = some (t1, t2))
    (h1 : pyFloat t1 = some lat) (h2 : pyFloat t2 = some lon) :
    processSection_a region records sec =
      if is_valid_coordinate lat lon region then
        records ++ [{ name := pyStrip nm,
                      type := match searchLabelValue typeLabels sec with
                              | some tv => pyStrip tv
                              | none => unspecifiedType,
                      latitude := lat, longitude := lon,
                      description := (searchLabelValue descLabels sec).map pyStrip }]
      else records := by
  simp only [processSection_a, hs, hn, hc, h1, h2, ite_false]

/-- C4: parsing the single block `Name: Juhu Beach` ⏎ `Coordinates: 19.10
72.83` against any region whose bounds contain (19.10, 72.83) yields exactly
one record: name `Juhu Beach`, latitude 19.10, longitude 72.83, type
`unspecified`, description absent. -/
theorem c4_juhu_block (region : SearchRegion)
    (h1 : region.bounds.south ≤ mkRat 191 10)
    (h2 : mkRat 191 10 ≤ region.bounds.north)
    (h3 : region.bounds.west ≤ mkRat 7283 100)
    (h4 : mkRat 7283 100 ≤ region.bounds.east) :
    create_structured_data_a juhuText region =
      [⟨"Juhu Beach".toList, unspecifiedType,
        mkRat 191 10, mkRat 7283 100, none⟩] := by
  have hv : is_valid_coordinate (mkRat 191 10) (mkRat 7283 100) region = true := by
    unfold is_valid_coordinate
    rw [decide_eq_true_eq]
    exact ⟨by decide, by decide, by decide, by decide, h1, h2, h3, h4⟩
  unfold create_structured_data_a
  rw [show pySplitBlank [] juhuText = [juhuText] from rfl,
    List.foldl_cons, List.foldl_nil,
    processSection_a_eq region [] juhuText ("Juhu Beach".toList)
      ("19.10".toList) ("72.83".toList) (mkRat 191 10) (mkRat 7283 100)
      (by decide) (by decide) (by decide) (by decide) (by decide),
    if_pos hv]
  rfl

/-- Witness for C4 at the fixed metropolitan-box region. -/
theorem c4_juhu_block_witness :
    create_structured_data_a juhuText mumbaiRegion =
      [⟨"Juhu Beach".toList, unspecifiedType,
        mkRat 191 10, mkRat 7283 100, none⟩] :=
  c4_juhu_block mumbaiRegion (by decide) (by decide) (by decide) (by decide)
